import Mathlib

/-!
Shallow embedding of `system/hci/src/vendor.c` (the Bluetooth vendor-library
shim) and proofs about its operations.

Modelling conventions:
* Opaque machine pointers are tagged naturals (`Ptr`); a nullable C pointer is
  `Option Ptr` (`none` = `NULL`).
* The mutable static variables of the C file become the fields of `State`.
* Calls into external code (the dynamic loader, the vendor library, the
  allocator, the registered host-stack callbacks) are recorded as `Event`s;
  their return values are supplied by `Env` or by function fields of the
  structures that model the external objects.
* `ALOGI`/`ALOGE` logging calls have no observable effect and are not modelled.
* A C `assert` is modelled by returning `none` (the aborted execution); the
  claims' preconditions make the `some` branch the one of interest.
-/

namespace VendorShim

/-- An opaque machine pointer (library handle, buffer, function pointer). -/
structure Ptr where
  addr : Nat
deriving DecidableEq, Repr

/-- `vendor_cb`: a host-stack callback pointer `void (*)(bool)`.  Invoking it
is an external effect, so only its identity is modelled. -/
abbrev vendor_cb := Nat

/-- `tINT_CMD_CBACK`: the command-complete callback pointer forwarded verbatim
by `transmit_cb`; only its identity matters. -/
abbrev tINT_CMD_CBACK := Nat

/-- Modelled from the spec: the header declaring `vendor_async_opcode_t` is
not among the sources; the spec states the callback table has seven slots
indexed by this closed enumeration, so the opcodes are `Fin 7`, with
`VENDOR_DO_EPILOG` the last value (`LAST_VENDOR_OPCODE_VALUE`). -/
abbrev vendor_async_opcode_t := Fin 7

/-- Modelled from the spec: first async opcode, C enum value 0. -/
def VENDOR_CONFIGURE_FIRMWARE : vendor_async_opcode_t := 0

/-- Modelled from the spec: async opcode for SCO configuration, C enum value 1. -/
def VENDOR_CONFIGURE_SCO : vendor_async_opcode_t := 1

/-- Modelled from the spec: async opcode for LPM mode, C enum value 2. -/
def VENDOR_SET_LPM_MODE : vendor_async_opcode_t := 2

/-- Modelled from the spec: the last async opcode (epilog), C enum value 6. -/
def VENDOR_DO_EPILOG : vendor_async_opcode_t := 6

/-- `#define LAST_VENDOR_OPCODE_VALUE VENDOR_DO_EPILOG` (vendor.c line 29);
the callbacks array has `LAST_VENDOR_OPCODE_VALUE + 1` entries. -/
def LAST_VENDOR_OPCODE_VALUE : Nat := VENDOR_DO_EPILOG.val

/-- `bt_vendor_op_result_t`: the vendor ABI result code.  The header is not
among the sources; the shim only compares a result against
`BT_VND_OP_RESULT_SUCCESS`, so the type is modelled as `Nat`. -/
abbrev bt_vendor_op_result_t := Nat

/-- `BT_VND_OP_RESULT_SUCCESS` (value 0 in the vendor ABI). -/
def BT_VND_OP_RESULT_SUCCESS : bt_vendor_op_result_t := 0

/-- `static const char *VENDOR_LIBRARY_NAME` (vendor.c line 31). -/
def VENDOR_LIBRARY_NAME : String := "libbt-vendor.so"

/-- `static const char *VENDOR_LIBRARY_SYMBOL_NAME` (vendor.c line 32). -/
def VENDOR_LIBRARY_SYMBOL_NAME : String := "BLUETOOTH_VENDOR_LIB_INTERFACE"

/-- The shim functions whose addresses are placed in `lib_callbacks`
(vendor.c lines 183-193). -/
inductive ShimCb where
  | firmware_config
  | sco_config
  | low_power_mode
  | sco_audiostate
  | buffer_alloc
  | buffer_free
  | transmit
  | epilog
deriving DecidableEq, Repr

/-- `bt_vendor_callbacks_t`: the callback table handed to the vendor library's
`init`.  Its first field is `sizeof` the struct (a target-dependent byte
count, not a callback); `entries` are the function pointers that follow, in
initializer order. -/
structure bt_vendor_callbacks_t where
  size : Nat
  entries : List ShimCb
deriving DecidableEq, Repr

/-- `static const bt_vendor_callbacks_t lib_callbacks = { sizeof(lib_callbacks),
firmware_config_cb, sco_config_cb, low_power_mode_cb, sco_audiostate_cb,
buffer_alloc_cb, buffer_free_cb, transmit_cb, epilog_cb }` (vendor.c lines
183-193).  The `sizeof` byte value is target-dependent and unused; 0 here. -/
def lib_callbacks : bt_vendor_callbacks_t :=
  { size := 0
    entries := [ShimCb.firmware_config, ShimCb.sco_config, ShimCb.low_power_mode,
                ShimCb.sco_audiostate, ShimCb.buffer_alloc, ShimCb.buffer_free,
                ShimCb.transmit, ShimCb.epilog] }

/-- `bt_vendor_interface_t`: the vendor library object resolved by `dlsym`.
`id` is the object's identity (its address), `init` and `op` return the
vendor library's status codes; `cleanup` is effect-only and is recorded as an
event carrying `id`. -/
structure bt_vendor_interface_t where
  id : Nat
  init : bt_vendor_callbacks_t → Ptr → Int
  op : Nat → Ptr → Int

/-- `allocator_t`: the external buffer allocator.  `alloc` returns the
(possibly `NULL`) buffer; `free` is effect-only and recorded as an event
carrying `id`. -/
structure allocator_t where
  id : Nat
  alloc : Int → Option Ptr

/-- `send_internal_command_cb`: the host-stack command-transmission callback.
`fn opcode buffer callback` is its `uint8_t` return value. -/
structure send_internal_command_cb where
  id : Nat
  fn : Nat → Ptr → tINT_CMD_CBACK → Nat

/-- Observable calls made by the shim into external code. -/
inductive Event where
  | dlopenCall (name : String) (ret : Option Ptr)
  | dlsymCall (handle : Ptr) (name : String)
  | initCall (iface : Nat) (cbs : bt_vendor_callbacks_t) (bdaddr : Ptr)
  | dlcloseCall (handle : Ptr)
  | cleanupCall (iface : Nat)
  | vendorCbCall (cb : vendor_cb) (success : Bool)
  | allocCall (alloc : Nat) (size : Int)
  | freeCall (alloc : Nat) (buffer : Ptr)
  | transmitCall (cb : Nat) (opcode : Nat) (buffer : Ptr) (callback : tINT_CMD_CBACK)
deriving DecidableEq, Repr

/-- The mutable static variables of vendor.c (lines 35-40).  `interface` and
`lib_callbacks` are `const` and live as plain definitions instead. -/
structure State where
  allocator : Option allocator_t
  callbacks : vendor_async_opcode_t → Option vendor_cb
  send_internal_command_callback : Option send_internal_command_cb
  lib_handle : Option Ptr
  lib_interface : Option bt_vendor_interface_t

/-- The zero-initialized statics at process start. -/
def State.initial : State :=
  { allocator := none
    callbacks := fun _ => none
    send_internal_command_callback := none
    lib_handle := none
    lib_interface := none }

/-- Results of the dynamic loader's calls, as found by this process. -/
structure Env where
  dlopen : String → Option Ptr
  dlsym : Ptr → String → Option bt_vendor_interface_t

/-- `vendor_open` (vendor.c lines 45-77).  Returns `none` when the entry
assertion `lib_handle == NULL` fails; otherwise `some (result, state, trace)`.

The body sets `allocator`, dlopens `VENDOR_LIBRARY_NAME`, dlsyms
`VENDOR_LIBRARY_SYMBOL_NAME`, and calls the interface's `init` with
`&lib_callbacks` and the bdaddr; on any failure the `error:` label nulls
`lib_interface`, dlcloses a non-NULL `lib_handle` and nulls it. -/
def vendor_open (env : Env) (local_bdaddr : Ptr) (buffer_allocator : allocator_t)
    (s0 : State) : Option (Bool × State × List Event) :=
  if s0.lib_handle.isSome then
    none
  else
    let s1 := { s0 with allocator := some buffer_allocator }
    match env.dlopen VENDOR_LIBRARY_NAME with
    | none =>
        some (false, { s1 with lib_interface := none, lib_handle := none },
          [Event.dlopenCall VENDOR_LIBRARY_NAME none])
    | some h =>
        let s2 := { s1 with lib_handle := some h }
        let log2 := [Event.dlopenCall VENDOR_LIBRARY_NAME (some h),
                     Event.dlsymCall h VENDOR_LIBRARY_SYMBOL_NAME]
        match env.dlsym h VENDOR_LIBRARY_SYMBOL_NAME with
        | none =>
            some (false, { s2 with lib_interface := none, lib_handle := none },
              log2 ++ [Event.dlcloseCall h])
        | some iface =>
            let s3 := { s2 with lib_interface := some iface }
            let status := iface.init lib_callbacks local_bdaddr
            let log3 := log2 ++ [Event.initCall iface.id lib_callbacks local_bdaddr]
            if status ≠ 0 then
              some (false, { s3 with lib_interface := none, lib_handle := none },
                log3 ++ [Event.dlcloseCall h])
            else
              some (true, s3, log3)

/-- `vendor_close` (vendor.c lines 79-88): cleanup a non-NULL interface,
dlclose a non-NULL handle, null both. -/
def vendor_close (s : State) : State × List Event :=
  let ev1 := match s.lib_interface with
             | some iface => [Event.cleanupCall iface.id]
             | none => []
  let ev2 := match s.lib_handle with
             | some h => [Event.dlcloseCall h]
             | none => []
  ({ s with lib_interface := none, lib_handle := none }, ev1 ++ ev2)

/-- `send_command` (vendor.c lines 90-93): assert the interface is loaded,
return `lib_interface->op(opcode, param)`.  `vendor_opcode_t` is an enum from
a header not among the sources; its numeric value is passed through, so `Nat`. -/
def send_command (s : State) (opcode : Nat) (param : Ptr) : Option Int :=
  s.lib_interface.map fun iface => iface.op opcode param

/-- `send_async_command` (vendor.c lines 95-98): identical body; the async
opcode's numeric value is passed to `op`. -/
def send_async_command (s : State) (opcode : vendor_async_opcode_t) (param : Ptr) :
    Option Int :=
  s.lib_interface.map fun iface => iface.op opcode.val param

/-- `set_callback` (vendor.c lines 100-102): `callbacks[opcode] = callback`. -/
def set_callback (s : State) (opcode : vendor_async_opcode_t) (callback : vendor_cb) :
    State :=
  { s with callbacks := Function.update s.callbacks opcode (some callback) }

/-- `set_send_internal_command_callback` (vendor.c lines 104-106). -/
def set_send_internal_command_callback (s : State) (callback : send_internal_command_cb) :
    State :=
  { s with send_internal_command_callback := some callback }

/-- `firmware_config_cb` (vendor.c lines 112-117): assert
`callbacks[VENDOR_CONFIGURE_FIRMWARE]` is set and invoke it with
`result == BT_VND_OP_RESULT_SUCCESS`. -/
def firmware_config_cb (s : State) (result : bt_vendor_op_result_t) :
    Option (List Event) :=
  (s.callbacks VENDOR_CONFIGURE_FIRMWARE).map fun cb =>
    [Event.vendorCbCall cb (decide (result = BT_VND_OP_RESULT_SUCCESS))]

/-- `sco_config_cb` (vendor.c lines 122-127). -/
def sco_config_cb (s : State) (result : bt_vendor_op_result_t) :
    Option (List Event) :=
  (s.callbacks VENDOR_CONFIGURE_SCO).map fun cb =>
    [Event.vendorCbCall cb (decide (result = BT_VND_OP_RESULT_SUCCESS))]

/-- `low_power_mode_cb` (vendor.c lines 131-136). -/
def low_power_mode_cb (s : State) (result : bt_vendor_op_result_t) :
    Option (List Event) :=
  (s.callbacks VENDOR_SET_LPM_MODE).map fun cb =>
    [Event.vendorCbCall cb (decide (result = BT_VND_OP_RESULT_SUCCESS))]

/-- `sco_audiostate_cb` (vendor.c lines 149-154): computes the status byte it
logs (`0` on success, else `1`) and returns; it reads no callback slot and
performs no external call, so its trace is empty. -/
def sco_audiostate_cb (_s : State) (result : bt_vendor_op_result_t) :
    Nat × List Event :=
  ((if result = BT_VND_OP_RESULT_SUCCESS then 0 else 1), [])

/-- `buffer_alloc_cb` (vendor.c lines 157-159): returns
`allocator->alloc(size)`; `none` models the crash when `allocator` is NULL. -/
def buffer_alloc_cb (s : State) (size : Int) : Option (Option Ptr × List Event) :=
  s.allocator.map fun a => (a.alloc size, [Event.allocCall a.id size])

/-- `buffer_free_cb` (vendor.c lines 163-165): calls `allocator->free(buffer)`. -/
def buffer_free_cb (s : State) (buffer : Ptr) : Option (List Event) :=
  s.allocator.map fun a => [Event.freeCall a.id buffer]

/-- `transmit_cb` (vendor.c lines 168-171): assert the send callback is
registered and return `send_internal_command_callback(opcode, buffer, callback)`. -/
def transmit_cb (s : State) (opcode : Nat) (buffer : Ptr) (callback : tINT_CMD_CBACK) :
    Option (Nat × List Event) :=
  s.send_internal_command_callback.map fun f =>
    (f.fn opcode buffer callback, [Event.transmitCall f.id opcode buffer callback])

/-- `epilog_cb` (vendor.c lines 176-181). -/
def epilog_cb (s : State) (result : bt_vendor_op_result_t) :
    Option (List Event) :=
  (s.callbacks VENDOR_DO_EPILOG).map fun cb =>
    [Event.vendorCbCall cb (decide (result = BT_VND_OP_RESULT_SUCCESS))]

/-- The dlclose events of a trace (used to state when the handle is released). -/
def dlcloseEvents (t : List Event) : List Event :=
  t.filter fun e => match e with
    | Event.dlcloseCall _ => true
    | _ => false

/-!
System-level model for the loading invariant: the shim state together with the
operating system's view of which library handles `dlopen` has returned and
`dlclose` has not yet released.
-/

/-- How one shim event changes the set of handles the OS holds open:
a successful `dlopen` adds its handle, `dlclose` releases one. -/
def osStep (hs : List Ptr) : Event → List Ptr
  | Event.dlopenCall _ (some h) => h :: hs
  | Event.dlcloseCall h => hs.erase h
  | _ => hs

/-- The shim state plus the OS's currently open handles. -/
structure Sys where
  st : State
  osHandles : List Ptr

/-- The system at process start: zeroed statics, no open handles. -/
def Sys.initial : Sys :=
  { st := State.initial, osHandles := [] }

/-- The operations whose interleavings the loading invariant quantifies over. -/
inductive Op where
  | openOp (env : Env) (bdaddr : Ptr) (alloc : allocator_t)
  | closeOp

/-- One call of `vendor_open` or `vendor_close`, with the OS handle set
updated by the trace.  An `openOp` whose entry assertion fails aborts the
process; that branch leaves the system unchanged and is unreachable on valid
sequences. -/
def Sys.step (sys : Sys) : Op → Sys
  | Op.openOp env bdaddr alloc =>
      match vendor_open env bdaddr alloc sys.st with
      | some r => { st := r.2.1, osHandles := r.2.2.foldl osStep sys.osHandles }
      | none => sys
  | Op.closeOp =>
      let r := vendor_close sys.st
      { st := r.1, osHandles := r.2.foldl osStep sys.osHandles }

/-- Run a sequence of open/close calls. -/
def Sys.run (sys : Sys) (ops : List Op) : Sys :=
  ops.foldl Sys.step sys

/-- The call sequence respects `vendor_open`'s entry assertion: every open
occurs while no library is open. -/
def validFrom : Sys → List Op → Bool
  | _, [] => true
  | sys, op :: rest =>
      (match op with
       | Op.openOp _ _ _ => sys.st.lib_handle.isNone
       | Op.closeOp => true) && validFrom (sys.step op) rest

/-- The loading invariant: the OS holds exactly the handle the shim stores,
and none when the shim stores none. -/
def Inv (sys : Sys) : Prop :=
  match sys.st.lib_handle with
  | some h => sys.osHandles = [h]
  | none => sys.osHandles = []

/-!
Concrete external objects used to exercise the definitions.
-/

/-- A concrete bdaddr pointer. -/
def bdW : Ptr := ⟨9⟩

/-- A vendor interface whose `init` succeeds and whose `op` echoes the opcode. -/
def ifaceW : bt_vendor_interface_t :=
  { id := 11, init := fun _ _ => 0, op := fun opc _ => Int.ofNat opc }

/-- A concrete buffer allocator. -/
def allocW : allocator_t := { id := 3, alloc := fun _ => some ⟨2⟩ }

/-- A concrete host-stack transmission callback. -/
def fW : send_internal_command_cb := { id := 5, fn := fun _ _ _ => 0 }

/-- A loader in which every step of `vendor_open` succeeds. -/
def envW : Env := { dlopen := fun _ => some ⟨1⟩, dlsym := fun _ _ => some ifaceW }

/-- A loader in which `dlopen` succeeds but `dlsym` fails. -/
def envSymFailW : Env := { dlopen := fun _ => some ⟨1⟩, dlsym := fun _ _ => none }

/-- A state in which every callback slot is registered (slot `o` holds the
distinct callback pointer `o.val + 1`). -/
def sAll : State := { State.initial with callbacks := fun o => some (o.val + 1) }

/-- A state holding a loaded vendor interface. -/
def sIfaceW : State := { State.initial with lib_interface := some ifaceW }

/-- A state with the transmission callback registered. -/
def sTransW : State :=
  { State.initial with send_internal_command_callback := some fW }

/-- The state produced by a successful `vendor_open` under `envW`. -/
def sOpenW : State :=
  { State.initial with
    allocator := some allocW
    lib_handle := some ⟨1⟩
    lib_interface := some ifaceW }

/-- The trace produced by a successful `vendor_open` under `envW`. -/
def trW : List Event :=
  [Event.dlopenCall VENDOR_LIBRARY_NAME (some ⟨1⟩),
   Event.dlsymCall ⟨1⟩ VENDOR_LIBRARY_SYMBOL_NAME,
   Event.initCall 11 lib_callbacks bdW]

/-- The state produced by a `vendor_open` whose `dlsym` fails. -/
def sOpenFailW : State := { State.initial with allocator := some allocW }

/-- The trace of a `vendor_open` whose `dlsym` fails. -/
def trSymFailW : List Event :=
  [Event.dlopenCall VENDOR_LIBRARY_NAME (some ⟨1⟩),
   Event.dlsymCall ⟨1⟩ VENDOR_LIBRARY_SYMBOL_NAME,
   Event.dlcloseCall ⟨1⟩]

/-- A concrete interleaving of open and close calls. -/
def opsW : List Op :=
  [Op.openOp envW bdW allocW, Op.closeOp,
   Op.openOp envSymFailW bdW allocW, Op.closeOp]

/-!
Theorems.
-/

/-- Claim C1: `vendor_open` performs exactly the sequence dlopen
`"libbt-vendor.so"`, dlsym `"BLUETOOTH_VENDOR_LIB_INTERFACE"`, then the
resolved interface's `init` with the library callback table and the local
bdaddr; it returns `true` if and only if all three steps succeed (dlopen
non-NULL, dlsym non-NULL, `init` returning 0). -/
theorem vendor_open_exact_sequence (env : Env) (bdaddr : Ptr) (alloc : allocator_t)
    (s : State) (hpre : s.lib_handle = none) :
    ∃ b s' tr, vendor_open env bdaddr alloc s = some (b, s', tr) ∧
      (b = true ↔ ∃ h iface, env.dlopen VENDOR_LIBRARY_NAME = some h ∧
          env.dlsym h VENDOR_LIBRARY_SYMBOL_NAME = some iface ∧
          iface.init lib_callbacks bdaddr = 0) ∧
      (∀ h iface, env.dlopen VENDOR_LIBRARY_NAME = some h →
          env.dlsym h VENDOR_LIBRARY_SYMBOL_NAME = some iface →
          iface.init lib_callbacks bdaddr = 0 →
          tr = [Event.dlopenCall VENDOR_LIBRARY_NAME (some h),
                Event.dlsymCall h VENDOR_LIBRARY_SYMBOL_NAME,
                Event.initCall iface.id lib_callbacks bdaddr]) := by
  rcases hdl : env.dlopen VENDOR_LIBRARY_NAME with _ | h
  · refine ⟨false,
      { s with allocator := some alloc, lib_interface := none, lib_handle := none },
      [Event.dlopenCall VENDOR_LIBRARY_NAME none], ?_, ?_, ?_⟩
    · simp [vendor_open, hpre, hdl]
    · simp [hdl]
    · intro h iface hh _ _
      exact Option.noConfusion hh
  · rcases hsym : env.dlsym h VENDOR_LIBRARY_SYMBOL_NAME with _ | iface
    · refine ⟨false,
        { s with allocator := some alloc, lib_interface := none, lib_handle := none },
        [Event.dlopenCall VENDOR_LIBRARY_NAME (some h),
         Event.dlsymCall h VENDOR_LIBRARY_SYMBOL_NAME,
         Event.dlcloseCall h], ?_, ?_, ?_⟩
      · simp [vendor_open, hpre, hdl, hsym]
      · simp [hsym]
      · intro h0 iface0 hh hs _
        injection hh with hh
        subst hh
        rw [hsym] at hs
        exact Option.noConfusion hs
    · by_cases hinit : iface.init lib_callbacks bdaddr = 0
      · refine ⟨true,
          { s with allocator := some alloc, lib_handle := some h, lib_interface := some iface },
          [Event.dlopenCall VENDOR_LIBRARY_NAME (some h),
           Event.dlsymCall h VENDOR_LIBRARY_SYMBOL_NAME,
           Event.initCall iface.id lib_callbacks bdaddr], ?_, ?_, ?_⟩
        · simp [vendor_open, hpre, hdl, hsym, hinit]
        · simp [hsym, hinit]
        · intro h0 iface0 hh hs _
          injection hh with hh
          subst hh
          rw [hsym] at hs
          injection hs with hs
          subst hs
          rfl
      · refine ⟨false,
          { s with allocator := some alloc, lib_interface := none, lib_handle := none },
          [Event.dlopenCall VENDOR_LIBRARY_NAME (some h),
           Event.dlsymCall h VENDOR_LIBRARY_SYMBOL_NAME,
           Event.initCall iface.id lib_callbacks bdaddr,
           Event.dlcloseCall h], ?_, ?_, ?_⟩
        · simp [vendor_open, hpre, hdl, hsym, hinit]
        · simp [hsym, hinit]
        · intro h0 iface0 hh hs hz
          injection hh with hh
          subst hh
          rw [hsym] at hs
          injection hs with hs
          subst hs
          exact absurd hz hinit

/-- Witness for C1: under the all-success loader `envW`, `vendor_open` from
the initial state succeeds and emits exactly the dlopen, dlsym, init trace. -/
theorem vendor_open_exact_sequence_witness :
    (vendor_open envW bdW allocW State.initial).map (fun r => (r.1, r.2.2)) =
      some (true, trW) := by
  obtain ⟨b, s', tr, heq, hiff, htr⟩ :=
    vendor_open_exact_sequence envW bdW allocW State.initial rfl
  have hb : b = true := hiff.mpr ⟨⟨1⟩, ifaceW, rfl, rfl, rfl⟩
  have ht : tr = trW := htr ⟨1⟩ ifaceW rfl rfl rfl
  rw [heq, hb, ht]
  rfl

/-- Claim C8: whenever `vendor_open` returns `false`, afterwards
`lib_handle == NULL` and `lib_interface == NULL`, and `dlclose` is called on
the handle exactly when `dlopen` had succeeded. -/
theorem vendor_open_fails_atomically (env : Env) (bdaddr : Ptr) (alloc : allocator_t)
    (s : State) (hpre : s.lib_handle = none) (b : Bool) (s' : State) (tr : List Event)
    (heq : vendor_open env bdaddr alloc s = some (b, s', tr)) (hb : b = false) :
    s'.lib_handle = none ∧ s'.lib_interface = none ∧
    dlcloseEvents tr = (match env.dlopen VENDOR_LIBRARY_NAME with
                        | some h => [Event.dlcloseCall h]
                        | none => []) := by
  subst hb
  rcases hdl : env.dlopen VENDOR_LIBRARY_NAME with _ | h
  · rw [vendor_open] at heq
    simp [hpre, hdl] at heq
    obtain ⟨hs', htr⟩ := heq
    subst hs'
    subst htr
    exact ⟨rfl, rfl, by simp [dlcloseEvents, hdl]⟩
  · rcases hsym : env.dlsym h VENDOR_LIBRARY_SYMBOL_NAME with _ | iface
    · rw [vendor_open] at heq
      simp [hpre, hdl, hsym] at heq
      obtain ⟨hs', htr⟩ := heq
      subst hs'
      subst htr
      exact ⟨rfl, rfl, by simp [dlcloseEvents, hdl]⟩
    · by_cases hinit : iface.init lib_callbacks bdaddr = 0
      · rw [vendor_open] at heq
        simp [hpre, hdl, hsym, hinit] at heq
      · rw [vendor_open] at heq
        simp [hpre, hdl, hsym, hinit] at heq
        obtain ⟨hs', htr⟩ := heq
        subst hs'
        subst htr
        exact ⟨rfl, rfl, by simp [dlcloseEvents, hdl]⟩

/-- Witness for C8: with a loader whose `dlsym` fails, `vendor_open` fails,
both pointers end NULL, and the successfully dlopened handle is dlclosed. -/
theorem vendor_open_fails_atomically_witness :
    sOpenFailW.lib_handle = none ∧ sOpenFailW.lib_interface = none ∧
    dlcloseEvents trSymFailW = [Event.dlcloseCall ⟨1⟩] :=
  vendor_open_fails_atomically envSymFailW bdW allocW State.initial rfl
    false sOpenFailW trSymFailW rfl rfl

/-- An open call from a state satisfying its entry assertion preserves the
loading invariant. -/
theorem inv_step_open (sys : Sys) (env : Env) (bdaddr : Ptr) (alloc : allocator_t)
    (h : Inv sys) (hpre : sys.st.lib_handle = none) :
    Inv (sys.step (Op.openOp env bdaddr alloc)) := by
  have hos : sys.osHandles = [] := by simpa [Inv, hpre] using h
  rcases hdl : env.dlopen VENDOR_LIBRARY_NAME with _ | h2
  · simp [Sys.step, vendor_open, hpre, hdl, Inv, osStep, hos]
  · rcases hsym : env.dlsym h2 VENDOR_LIBRARY_SYMBOL_NAME with _ | iface
    · simp [Sys.step, vendor_open, hpre, hdl, hsym, Inv, osStep, hos]
    · by_cases hinit : iface.init lib_callbacks bdaddr = 0
      · simp [Sys.step, vendor_open, hpre, hdl, hsym, hinit, Inv, osStep, hos]
      · simp [Sys.step, vendor_open, hpre, hdl, hsym, hinit, Inv, osStep, hos]

/-- A close call preserves the loading invariant. -/
theorem inv_step_close (sys : Sys) (h : Inv sys) : Inv (sys.step Op.closeOp) := by
  rcases hlh : sys.st.lib_handle with _ | hd
  · have hos : sys.osHandles = [] := by simpa [Inv, hlh] using h
    rcases hli : sys.st.lib_interface with _ | iface
    · simp [Sys.step, vendor_close, hlh, hli, Inv, osStep, hos]
    · simp [Sys.step, vendor_close, hlh, hli, Inv, osStep, hos]
  · have hos : sys.osHandles = [hd] := by simpa [Inv, hlh] using h
    rcases hli : sys.st.lib_interface with _ | iface
    · simp [Sys.step, vendor_close, hlh, hli, Inv, osStep, hos]
    · simp [Sys.step, vendor_close, hlh, hli, Inv, osStep, hos]

/-- The loading invariant holds after any valid open/close sequence. -/
theorem inv_run (ops : List Op) : ∀ sys : Sys, Inv sys → validFrom sys ops = true →
    Inv (Sys.run sys ops) := by
  induction ops with
  | nil => exact fun sys h _ => h
  | cons op rest ih =>
      intro sys h hv
      simp only [validFrom, Bool.and_eq_true] at hv
      obtain ⟨hg, hrest⟩ := hv
      have hstep : Inv (sys.step op) := by
        cases op with
        | openOp env bd a =>
            exact inv_step_open sys env bd a h (by simpa using hg)
        | closeOp => exact inv_step_close sys h
      exact ih (sys.step op) hstep hrest

/-- A system satisfying the invariant holds at most one open handle. -/
theorem inv_length (sys : Sys) (h : Inv sys) : sys.osHandles.length ≤ 1 := by
  rcases hlh : sys.st.lib_handle with _ | hd
  · have hos : sys.osHandles = [] := by simpa [Inv, hlh] using h
    simp [hos]
  · have hos : sys.osHandles = [hd] := by simpa [Inv, hlh] using h
    simp [hos]

/-- Claim C3: under the precondition that `vendor_open` is only called when no
library is open (as its assertion requires), every interleaving of
`vendor_open` and `vendor_close` calls preserves the invariant that at most
one library handle is held, and `vendor_close` always restores the closed
state (`lib_handle == NULL` and `lib_interface == NULL`). -/
theorem at_most_one_library (ops : List Op) (hv : validFrom Sys.initial ops = true) :
    Inv (Sys.run Sys.initial ops) ∧
    (Sys.run Sys.initial ops).osHandles.length ≤ 1 ∧
    ∀ s : State, (vendor_close s).1.lib_handle = none ∧
      (vendor_close s).1.lib_interface = none := by
  have h1 := inv_run ops Sys.initial rfl hv
  exact ⟨h1, inv_length _ h1, fun s => ⟨rfl, rfl⟩⟩

/-- Witness for C3: a concrete valid sequence (successful open, close, failed
open, close) keeps the invariant, and the closed state ends with no handle. -/
theorem at_most_one_library_witness :
    validFrom Sys.initial opsW = true ∧
    Inv (Sys.run Sys.initial opsW) ∧
    (Sys.run Sys.initial opsW).osHandles.length ≤ 1 ∧
    (vendor_close State.initial).1.lib_handle = none :=
  ⟨rfl, (at_most_one_library opsW rfl).1, (at_most_one_library opsW rfl).2.1,
   ((at_most_one_library opsW rfl).2.2 State.initial).1⟩

/-- Counterexample to claim C2 as stated: in a state where every one of the
seven callback slots is registered, `sco_audiostate_cb` (the SCO codec/audio
state event) invokes no internal callback at all — its trace is empty and it
merely computes the status byte it logs.  So not every vendor callback is
forwarded 1:1 to the host stack. -/
theorem sco_audiostate_not_forwarded :
    ((List.finRange 7).all fun o => (sAll.callbacks o).isSome) = true ∧
    sco_audiostate_cb sAll BT_VND_OP_RESULT_SUCCESS = (0, []) := by
  exact ⟨by decide, rfl⟩

/-- Claim C2 (amended): the four result-relaying events (firmware
configuration, SCO configuration, low-power mode, epilog) are forwarded 1:1:
each shim callback invokes the internal callback registered for its opcode.
The SCO codec/audio-state callback is the exception: it invokes no internal
callback and only logs. -/
theorem callbacks_forwarded (s : State) (r : bt_vendor_op_result_t) :
    (∀ cb, s.callbacks VENDOR_CONFIGURE_FIRMWARE = some cb →
      firmware_config_cb s r =
        some [Event.vendorCbCall cb (decide (r = BT_VND_OP_RESULT_SUCCESS))]) ∧
    (∀ cb, s.callbacks VENDOR_CONFIGURE_SCO = some cb →
      sco_config_cb s r =
        some [Event.vendorCbCall cb (decide (r = BT_VND_OP_RESULT_SUCCESS))]) ∧
    (∀ cb, s.callbacks VENDOR_SET_LPM_MODE = some cb →
      low_power_mode_cb s r =
        some [Event.vendorCbCall cb (decide (r = BT_VND_OP_RESULT_SUCCESS))]) ∧
    (∀ cb, s.callbacks VENDOR_DO_EPILOG = some cb →
      epilog_cb s r =
        some [Event.vendorCbCall cb (decide (r = BT_VND_OP_RESULT_SUCCESS))]) ∧
    (sco_audiostate_cb s r).2 = [] := by
  refine ⟨?_, ?_, ?_, ?_, rfl⟩ <;> intro cb hcb <;>
    simp [firmware_config_cb, sco_config_cb, low_power_mode_cb, epilog_cb, hcb]

/-- Witness for C2 (amended): with every slot of `sAll` registered, each of
the four relaying callbacks invokes its slot's callback, and the audio-state
callback invokes none. -/
theorem callbacks_forwarded_witness :
    firmware_config_cb sAll BT_VND_OP_RESULT_SUCCESS =
      some [Event.vendorCbCall 1 true] ∧
    sco_config_cb sAll BT_VND_OP_RESULT_SUCCESS =
      some [Event.vendorCbCall 2 true] ∧
    low_power_mode_cb sAll BT_VND_OP_RESULT_SUCCESS =
      some [Event.vendorCbCall 3 true] ∧
    epilog_cb sAll BT_VND_OP_RESULT_SUCCESS =
      some [Event.vendorCbCall 7 true] ∧
    (sco_audiostate_cb sAll BT_VND_OP_RESULT_SUCCESS).2 = [] := by
  have h := callbacks_forwarded sAll BT_VND_OP_RESULT_SUCCESS
  exact ⟨h.1 1 rfl, h.2.1 2 rfl, h.2.2.1 3 rfl, h.2.2.2.1 7 rfl, h.2.2.2.2⟩

/-- Claim C9: each result-relaying callback translates the vendor result code
to a boolean — under the precondition that a callback is registered for the
corresponding opcode, that callback is invoked with `true` if and only if the
result is `BT_VND_OP_RESULT_SUCCESS`. -/
theorem result_translated (s : State) (r : bt_vendor_op_result_t) :
    (∀ cb, s.callbacks VENDOR_CONFIGURE_FIRMWARE = some cb →
      ∃ b, firmware_config_cb s r = some [Event.vendorCbCall cb b] ∧
        (b = true ↔ r = BT_VND_OP_RESULT_SUCCESS)) ∧
    (∀ cb, s.callbacks VENDOR_CONFIGURE_SCO = some cb →
      ∃ b, sco_config_cb s r = some [Event.vendorCbCall cb b] ∧
        (b = true ↔ r = BT_VND_OP_RESULT_SUCCESS)) ∧
    (∀ cb, s.callbacks VENDOR_SET_LPM_MODE = some cb →
      ∃ b, low_power_mode_cb s r = some [Event.vendorCbCall cb b] ∧
        (b = true ↔ r = BT_VND_OP_RESULT_SUCCESS)) ∧
    (∀ cb, s.callbacks VENDOR_DO_EPILOG = some cb →
      ∃ b, epilog_cb s r = some [Event.vendorCbCall cb b] ∧
        (b = true ↔ r = BT_VND_OP_RESULT_SUCCESS)) := by
  refine ⟨?_, ?_, ?_, ?_⟩ <;> intro cb hcb <;>
    exact ⟨decide (r = BT_VND_OP_RESULT_SUCCESS),
      by simp [firmware_config_cb, sco_config_cb, low_power_mode_cb, epilog_cb, hcb],
      by simp⟩

/-- Witness for C9: at a success result the firmware callback is invoked with
`true`; at the failing result 5 the epilog callback is invoked with `false`. -/
theorem result_translated_witness :
    firmware_config_cb sAll BT_VND_OP_RESULT_SUCCESS =
      some [Event.vendorCbCall 1 true] ∧
    epilog_cb sAll 5 = some [Event.vendorCbCall 7 false] := by
  constructor
  · obtain ⟨b, hb, hiff⟩ := (result_translated sAll BT_VND_OP_RESULT_SUCCESS).1 1 rfl
    rw [hb, hiff.mpr rfl]
  · obtain ⟨b, hb, hiff⟩ := (result_translated sAll 5).2.2.2 7 rfl
    have hfalse : b = false := by
      cases hbv : b
      · rfl
      · exact absurd (hiff.mp hbv) (by decide)
    rw [hb, hfalse]

/-- Claim C4: command forwarding is a pure pass-through — under the
precondition that a vendor library is open, `send_command` and
`send_async_command` return exactly `lib_interface->op(opcode, param)`, with
opcode and param passed unchanged. -/
theorem send_command_passthrough (s : State) (iface : bt_vendor_interface_t)
    (h : s.lib_interface = some iface) (opcode : Nat)
    (aop : vendor_async_opcode_t) (param : Ptr) :
    send_command s opcode param = some (iface.op opcode param) ∧
    send_async_command s aop param = some (iface.op aop.val param) := by
  simp [send_command, send_async_command, h]

/-- Witness for C4: with `ifaceW` loaded, both commands return exactly the
interface's `op` result. -/
theorem send_command_passthrough_witness :
    send_command sIfaceW 3 bdW = some (ifaceW.op 3 bdW) ∧
    send_async_command sIfaceW VENDOR_DO_EPILOG bdW = some (ifaceW.op 6 bdW) :=
  send_command_passthrough sIfaceW ifaceW rfl 3 VENDOR_DO_EPILOG bdW

/-- Claim C10: `vendor_close` is idempotent — closing twice yields the same
state as closing once (and the second close performs no external call), and
closing in the closed state leaves the state unchanged with no external call. -/
theorem vendor_close_idempotent (s : State) :
    (vendor_close (vendor_close s).1).1 = (vendor_close s).1 ∧
    (vendor_close (vendor_close s).1).2 = [] ∧
    (s.lib_interface = none → s.lib_handle = none → vendor_close s = (s, [])) := by
  refine ⟨rfl, rfl, ?_⟩
  intro h1 h2
  cases s
  cases h1
  cases h2
  rfl

/-- Witness for C10: closing from the initial (closed) state is a no-op, and
closing twice from any one concrete state equals closing once. -/
theorem vendor_close_idempotent_witness :
    (vendor_close (vendor_close sOpenW).1).1 = (vendor_close sOpenW).1 ∧
    vendor_close State.initial = (State.initial, []) :=
  ⟨(vendor_close_idempotent sOpenW).1,
   (vendor_close_idempotent State.initial).2.2 rfl rfl⟩

/-- Whatever the loader outcomes, `vendor_open` leaves the callback table and
the send callback untouched and stores the allocator it was passed. -/
theorem vendor_open_preserves (env : Env) (bdaddr : Ptr) (alloc : allocator_t)
    (s : State) (b : Bool) (s' : State) (tr : List Event)
    (heq : vendor_open env bdaddr alloc s = some (b, s', tr)) :
    s'.callbacks = s.callbacks ∧
    s'.send_internal_command_callback = s.send_internal_command_callback ∧
    s'.allocator = some alloc := by
  simp only [vendor_open] at heq
  split at heq
  · exact Option.noConfusion heq
  · split at heq
    · injection heq with h
      injection h with hb h
      injection h with hs ht
      subst hs
      exact ⟨rfl, rfl, rfl⟩
    · split at heq
      · injection heq with h
        injection h with hb h
        injection h with hs ht
        subst hs
        exact ⟨rfl, rfl, rfl⟩
      · split at heq
        · injection heq with h
          injection h with hb h
          injection h with hs ht
          subst hs
          exact ⟨rfl, rfl, rfl⟩
        · injection heq with h
          injection h with hb h
          injection h with hs ht
          subst hs
          exact ⟨rfl, rfl, rfl⟩

/-- Counterexample to claim C5 as stated: the callback table is not the only
mutable state.  `set_send_internal_command_callback` changes the
`send_internal_command_callback` variable — a piece of mutable state outside
the table — while leaving the table untouched. -/
theorem callbacks_not_only_state :
    (set_send_internal_command_callback State.initial fW).send_internal_command_callback ≠
      State.initial.send_internal_command_callback ∧
    (set_send_internal_command_callback State.initial fW).callbacks =
      State.initial.callbacks := by
  constructor
  · simp [set_send_internal_command_callback, State.initial]
  · rfl

/-- Claim C5 (amended): the callbacks table has exactly seven slots
(`LAST_VENDOR_OPCODE_VALUE + 1`, table size modelled from the spec), and
`set_callback` writes only the table; but the shim's mutable state also
comprises `allocator`, `send_internal_command_callback`, `lib_handle` and
`lib_interface`, written by `vendor_open`, `vendor_close` and
`set_send_internal_command_callback` — which all leave the table unchanged. -/
theorem state_footprint :
    LAST_VENDOR_OPCODE_VALUE + 1 = 7 ∧
    (∀ (s : State) (o : vendor_async_opcode_t) (cb : vendor_cb),
      (set_callback s o cb).allocator = s.allocator ∧
      (set_callback s o cb).send_internal_command_callback =
        s.send_internal_command_callback ∧
      (set_callback s o cb).lib_handle = s.lib_handle ∧
      (set_callback s o cb).lib_interface = s.lib_interface) ∧
    (∀ (s : State) (f : send_internal_command_cb),
      (set_send_internal_command_callback s f).callbacks = s.callbacks ∧
      (set_send_internal_command_callback s f).allocator = s.allocator ∧
      (set_send_internal_command_callback s f).lib_handle = s.lib_handle ∧
      (set_send_internal_command_callback s f).lib_interface = s.lib_interface) ∧
    (∀ s : State,
      (vendor_close s).1.callbacks = s.callbacks ∧
      (vendor_close s).1.allocator = s.allocator ∧
      (vendor_close s).1.send_internal_command_callback =
        s.send_internal_command_callback) ∧
    (∀ (env : Env) (bdaddr : Ptr) (alloc : allocator_t) (s : State)
        (b : Bool) (s' : State) (tr : List Event),
      vendor_open env bdaddr alloc s = some (b, s', tr) →
      s'.callbacks = s.callbacks ∧
      s'.send_internal_command_callback = s.send_internal_command_callback) := by
  refine ⟨rfl, fun s o cb => ⟨rfl, rfl, rfl, rfl⟩,
    fun s f => ⟨rfl, rfl, rfl, rfl⟩, fun s => ⟨rfl, rfl, rfl⟩, ?_⟩
  intro env bdaddr alloc s b s' tr heq
  obtain ⟨h1, h2, -⟩ := vendor_open_preserves env bdaddr alloc s b s' tr heq
  exact ⟨h1, h2⟩

/-- Witness for C5 (amended): the seven-slot size, a concrete `set_callback`
leaves other fields alone, a concrete registration leaves the table alone,
and a concrete successful `vendor_open` leaves the table alone. -/
theorem state_footprint_witness :
    LAST_VENDOR_OPCODE_VALUE + 1 = 7 ∧
    (set_callback State.initial VENDOR_CONFIGURE_SCO 9).lib_handle = none ∧
    (set_send_internal_command_callback State.initial fW).callbacks =
      State.initial.callbacks ∧
    sOpenW.callbacks = State.initial.callbacks :=
  ⟨state_footprint.1,
   (state_footprint.2.1 State.initial VENDOR_CONFIGURE_SCO 9).2.2.1,
   (state_footprint.2.2.1 State.initial fW).1,
   (state_footprint.2.2.2.2 envW bdW allocW State.initial true sOpenW trW rfl).1⟩

/-- Counterexample to claim C6 as stated: the callback table registered with
the vendor library holds eight function pointers, not a dozen (twelve). -/
theorem lib_callbacks_not_a_dozen : lib_callbacks.entries.length ≠ 12 := by
  decide

/-- Claim C6 (amended): the callback table the shim registers with the vendor
library at init marshals eight fixed callbacks (its leading field is the
struct's byte size, not a callback), and they are pairwise distinct. -/
theorem lib_callbacks_eight :
    lib_callbacks.entries.length = 8 ∧ lib_callbacks.entries.Nodup := by
  exact ⟨rfl, by decide⟩

/-- Claim C7: HCI buffer management and command transmission are fully
delegated — after any `vendor_open` (which stores the allocator it was
passed), `buffer_alloc_cb` returns exactly `allocator->alloc(size)` and
`buffer_free_cb` calls exactly `allocator->free(buffer)`; and whenever a
send callback is registered, `transmit_cb` returns exactly its value on the
same opcode, buffer and callback. -/
theorem delegation (env : Env) (bdaddr : Ptr) (alloc : allocator_t) (s : State) :
    (∀ (b : Bool) (s' : State) (tr : List Event),
      vendor_open env bdaddr alloc s = some (b, s', tr) →
      s'.allocator = some alloc ∧
      (∀ size, buffer_alloc_cb s' size =
        some (alloc.alloc size, [Event.allocCall alloc.id size])) ∧
      (∀ buffer, buffer_free_cb s' buffer =
        some [Event.freeCall alloc.id buffer])) ∧
    (∀ (s2 : State) (f : send_internal_command_cb) (opcode : Nat) (buffer : Ptr)
        (callback : tINT_CMD_CBACK),
      s2.send_internal_command_callback = some f →
      transmit_cb s2 opcode buffer callback =
        some (f.fn opcode buffer callback,
          [Event.transmitCall f.id opcode buffer callback])) := by
  constructor
  · intro b s' tr heq
    have halloc : s'.allocator = some alloc :=
      (vendor_open_preserves env bdaddr alloc s b s' tr heq).2.2
    exact ⟨halloc, fun size => by simp [buffer_alloc_cb, halloc],
      fun buffer => by simp [buffer_free_cb, halloc]⟩
  · intro s2 f opcode buffer callback hreg
    simp [transmit_cb, hreg]

/-- Witness for C7: after the concrete successful open, allocation and free
go to `allocW`, and a registered `fW` handles a concrete transmission. -/
theorem delegation_witness :
    sOpenW.allocator = some allocW ∧
    buffer_alloc_cb sOpenW 10 = some (some ⟨2⟩, [Event.allocCall 3 10]) ∧
    buffer_free_cb sOpenW bdW = some [Event.freeCall 3 bdW] ∧
    transmit_cb sTransW 7 bdW 4 = some (0, [Event.transmitCall 5 7 bdW 4]) := by
  obtain ⟨h1, h2⟩ := delegation envW bdW allocW State.initial
  obtain ⟨ha, hb, hc⟩ := h1 true sOpenW trW rfl
  exact ⟨ha, hb 10, hc bdW, h2 sTransW fW 7 bdW 4 rfl⟩

end VendorShim
